import Mathlib

/-!
Verification of the tenancy / role-based authorization / content moderation
core of the Opinian blogging platform (Flask + PostgreSQL source).

The embedding below is a shallow model of the relevant source code:

* table rows become Lean structures mirroring the columns that the verified
  routes read or write (presentation-only columns such as excerpt, tags,
  meta fields and image paths are not modelled; no verified property
  mentions them);
* the database is an explicit `Store` value; a SQL `UPDATE ... WHERE`
  becomes `sqlUpdate`, a `SELECT ... WHERE ... fetchone()` becomes
  `List.find?`, an `INSERT ... RETURNING id` appends a row carrying the
  next serial id;
* each Flask route handler becomes a pure function from the request data
  (form fields, session) and the current store to the next store plus the
  visible outcome; `datetime.utcnow()` becomes an explicit `now : Nat`
  parameter;
* a route decorated with `role_required([...])` first checks the session
  role and returns the store unchanged on failure, exactly as the
  decorator in `app.py` redirects before the handler body runs;
* the single `conn.commit()` at the end of a handler together with the
  `conn.rollback()` in its exception handler is modelled by returning the
  original store on every error path and the fully written store on
  success; storage-level failures of individual statements are modelled by
  explicit fault flags;
* the email collaborators (`email_service.py`) are modelled as an
  append-only list of sent messages in the store.
-/

/-- Row of the `users` table (`init_db.py`), restricted to the columns the
verified routes use.  `role_id` and `group_id` are nullable foreign keys. -/
structure UserRow where
  id : Nat
  username : String
  email : String
  password_hash : String
  first_name : String
  last_name : String
  role_id : Option Nat
  group_id : Option Nat
  is_active : Bool
  is_banned : Bool
  deriving Repr, DecidableEq

/-- Row of the `roles` table: serial id and unique name. -/
structure RoleRow where
  id : Nat
  name : String
  deriving Repr, DecidableEq

/-- Row of the `groups` (organizations / tenants) table. -/
structure GroupRow where
  id : Nat
  name : String
  description : String
  admin_user_id : Option Nat
  is_active : Bool
  deriving Repr, DecidableEq

/-- Row of the `blog_posts` or `pages` table (same shape for the verified
properties): publish state is the pair `is_published` / `published_at`. -/
structure ContentRow where
  id : Nat
  title : String
  author_id : Nat
  group_id : Option Nat
  is_published : Bool
  published_at : Option Nat
  deriving Repr, DecidableEq

/-- Row of the `moderation_queue` table (`init_db.py` lines 319-331). -/
structure QueueItem where
  id : Nat
  content_type : String
  content_id : Nat
  status : String
  reviewed_by : Option Nat
  review_notes : Option String
  created_at : Nat
  reviewed_at : Option Nat
  deriving Repr, DecidableEq

/-- Message handed to the email collaborator (`email_service.py`).  For
moderation decisions the fields follow
`send_moderation_decision_email(user_email, user_name, content_type,
decision, review_notes)`. -/
structure EmailMsg where
  to_addr : String
  recipient_name : String
  content_type : String
  decision : String
  notes : String
  deriving Repr, DecidableEq

/-- Row of the `password_reset_tokens` table: user id, token, expiry. -/
structure ResetTokenRow where
  user_id : Nat
  token : String
  expires_at : Nat
  deriving Repr, DecidableEq

/-- The database state threaded through every operation.  The `next*`
fields model the SERIAL id sequences. -/
structure Store where
  users : List UserRow
  roles : List RoleRow
  groups : List GroupRow
  posts : List ContentRow
  pages : List ContentRow
  queue : List QueueItem
  reset_tokens : List ResetTokenRow
  emails : List EmailMsg
  nextUserId : Nat
  nextGroupId : Nat
  nextPostId : Nat
  nextQueueId : Nat
  deriving Repr, DecidableEq

/-- The Flask session fields the verified routes read:
`session['user_id']`, `session['user_role']`, `session.get('group_id')`. -/
structure Session where
  user_id : Nat
  user_role : String
  group_id : Option Nat
  deriving Repr, DecidableEq

/-- SQL `UPDATE table SET ... WHERE p` over a list of rows: every matching
row is rewritten, the rest are untouched. -/
def sqlUpdate (p : α → Bool) (h : α → α) (l : List α) : List α :=
  l.map fun x => if p x then h x else x

/-- SQL equality against a possibly-NULL parameter: `col = NULL` is never
true in SQL, so a `None` on either side yields false. -/
def sql_opt_eq (a b : Option Nat) : Bool :=
  match a, b with
  | some x, some y => x == y
  | _, _ => false

/-- Roles that publish without moderation, from the check
`user_role in ['SuperAdmin', 'Admin', 'SuperUser']` in
`routes/blog.py` `create_post`. -/
def bypass_roles : List String := ["SuperAdmin", "Admin", "SuperUser"]

/-- Form data for `create_post` (`routes/blog.py`).  `publish_date` is the
raw scheduling field: `none` when absent or empty, `some none` when present
but unparseable (the source then falls back to `utcnow()`), `some (some d)`
when it parses to the timestamp `d`. -/
structure CreatePostForm where
  title : String
  content : String
  action : String
  publish_type : String
  publish_date : Option (Option Nat)
  deriving Repr, DecidableEq

/-- Handler `create_post` in `routes/blog.py` (POST branch, lines 140-254):
decides `is_published` / `needs_moderation` from the session role, computes
`published_at`, inserts the blog post, and when moderation is needed
inserts one `pending` moderation queue item for it. -/
def create_post (sess : Session) (f : CreatePostForm) (now : Nat) (s : Store) : Store :=
  let is_published := f.action == "publish" && bypass_roles.contains sess.user_role
  let needs_moderation := f.action == "publish" && ! bypass_roles.contains sess.user_role
  let published_at : Option Nat :=
    if is_published then
      match f.publish_type == "scheduled", f.publish_date with
      | true, some v => some (v.getD now)
      | _, _ => some now
    else none
  let post : ContentRow :=
    { id := s.nextPostId, title := f.title, author_id := sess.user_id,
      group_id := sess.group_id, is_published := is_published,
      published_at := published_at }
  let s1 := { s with posts := s.posts ++ [post], nextPostId := s.nextPostId + 1 }
  if needs_moderation then
    { s1 with
      queue := s1.queue ++
        [{ id := s1.nextQueueId, content_type := "blog_post",
           content_id := post.id, status := "pending", reviewed_by := none,
           review_notes := none, created_at := now, reviewed_at := none }],
      nextQueueId := s1.nextQueueId + 1 }
  else s1

/-- Outcome of `edit_post`. -/
inductive EditResult
  | notFound
  | permissionDenied
  | updated
  deriving Repr, DecidableEq

/-- Form data for `edit_post` (same scheduling encoding as for
`create_post`). -/
structure EditPostForm where
  title : String
  content : String
  action : String
  publish_type : String
  publish_date : Option (Option Nat)
  deriving Repr, DecidableEq

/-- Handler `edit_post` in `routes/blog.py` (POST branch, lines 288-372):
permission check, then `is_published := (action == 'publish')` and the
`published_at` computation of lines 304-316 -- kept when already set and
re-publishing immediately, overwritten by a scheduled date, and cleared
(`None`) when saving as draft. -/
def edit_post (sess : Session) (post_id : Nat) (f : EditPostForm) (now : Nat)
    (s : Store) : Store × EditResult :=
  match s.posts.find? (fun p => p.id == post_id) with
  | none => (s, EditResult.notFound)
  | some post =>
    if ¬ (sess.user_role = "SuperAdmin" ∨ sess.user_role = "Admin") ∧
        post.author_id ≠ sess.user_id then
      (s, EditResult.permissionDenied)
    else
      let is_published := f.action == "publish"
      let published_at : Option Nat :=
        if is_published then
          match f.publish_type == "scheduled", f.publish_date with
          | true, some v => some (v.getD now)
          | _, _ => if post.published_at = none then some now else post.published_at
        else none
      let s1 := { s with
        posts := sqlUpdate (fun p => p.id == post_id)
          (fun p => { p with title := f.title, is_published := is_published,
                             published_at := published_at }) s.posts }
      (s1, EditResult.updated)

/-- Outcome of the moderation handlers. -/
inductive ModerationResult
  | permissionRedirect
  | notFound
  | approved
  | rejected
  | noteRequired
  deriving Repr, DecidableEq

/-- Content row a queue item references, following the LEFT JOINs of the
moderation SELECTs: `blog_posts` when `content_type = 'blog_post'`,
`pages` when `content_type = 'page'`. -/
def findContent (s : Store) (ct : String) (cid : Nat) : Option ContentRow :=
  if ct = "blog_post" then s.posts.find? (fun p => p.id == cid)
  else if ct = "page" then s.pages.find? (fun p => p.id == cid)
  else none

/-- Author joined through the referenced content
(`JOIN users u ON bp.author_id = u.id OR p.author_id = u.id`). -/
def author_of (s : Store) (item : QueueItem) : Option UserRow :=
  (findContent s item.content_type item.content_id).bind
    (fun c => s.users.find? (fun u => u.id == c.author_id))

/-- Handler `approve_moderation` in `routes/admin.py` (lines 1038-1111),
wrapped in `role_required(['SuperAdmin', 'Admin'])`.  It fetches the queue
item by id with no condition on its current status, unconditionally sets
it to `approved` with reviewer, timestamp and notes, unconditionally
republishes the content (`is_published = TRUE, published_at = now`), and
sends the author a decision email whenever the joined author email is a
non-empty string. -/
def approve_moderation (sess : Session) (queue_id : Nat) (review_notes : String)
    (now : Nat) (s : Store) : Store × ModerationResult :=
  if ¬ (sess.user_role = "SuperAdmin" ∨ sess.user_role = "Admin") then
    (s, ModerationResult.permissionRedirect)
  else
    match s.queue.find? (fun q => q.id == queue_id) with
    | none => (s, ModerationResult.notFound)
    | some item =>
      let s1 := { s with
        queue := sqlUpdate (fun q => q.id == queue_id)
          (fun q => { q with status := "approved",
                             reviewed_by := some sess.user_id,
                             reviewed_at := some now,
                             review_notes := some review_notes }) s.queue }
      let publ : ContentRow → ContentRow :=
        fun p => { p with is_published := true, published_at := some now }
      let s2 :=
        if item.content_type = "blog_post" then
          { s1 with posts := sqlUpdate (fun p => p.id == item.content_id) publ s1.posts }
        else if item.content_type = "page" then
          { s1 with pages := sqlUpdate (fun p => p.id == item.content_id) publ s1.pages }
        else s1
      let s3 :=
        match author_of s item with
        | some u =>
          if u.email = "" then s2
          else { s2 with emails := s2.emails ++
            [{ to_addr := u.email,
               recipient_name := u.first_name ++ " " ++ u.last_name,
               content_type := item.content_type, decision := "approved",
               notes := review_notes }] }
        | none => s2
      (s3, ModerationResult.approved)

/-- Handler `reject_moderation` in `routes/admin.py` (lines 1114-1179):
requires non-empty notes, then with no condition on the current status
sets the queue item to `rejected` with reviewer, timestamp and notes
(content publish state untouched) and emails the author. -/
def reject_moderation (sess : Session) (queue_id : Nat) (review_notes : String)
    (now : Nat) (s : Store) : Store × ModerationResult :=
  if ¬ (sess.user_role = "SuperAdmin" ∨ sess.user_role = "Admin") then
    (s, ModerationResult.permissionRedirect)
  else if review_notes = "" then (s, ModerationResult.noteRequired)
  else
    match s.queue.find? (fun q => q.id == queue_id) with
    | none => (s, ModerationResult.notFound)
    | some item =>
      let s1 := { s with
        queue := sqlUpdate (fun q => q.id == queue_id)
          (fun q => { q with status := "rejected",
                             reviewed_by := some sess.user_id,
                             reviewed_at := some now,
                             review_notes := some review_notes }) s.queue }
      let s2 :=
        match author_of s item with
        | some u =>
          if u.email = "" then s1
          else { s1 with emails := s1.emails ++
            [{ to_addr := u.email,
               recipient_name := u.first_name ++ " " ++ u.last_name,
               content_type := item.content_type, decision := "rejected",
               notes := review_notes }] }
        | none => s1
      (s2, ModerationResult.rejected)

/-- JOIN step of the pending-moderation listing queries in
`routes/admin.py` `moderation_queue`: a queue row contributes one listed
item when its type and `pending` status match and both the content row and
the author row exist (inner JOINs). -/
def join_queue_item (s : Store) (table : List ContentRow) (ct : String)
    (q : QueueItem) : Option (QueueItem × ContentRow × UserRow) :=
  if q.content_type == ct && q.status == "pending" then
    match table.find? (fun c => c.id == q.content_id) with
    | some c =>
      match s.users.find? (fun u => u.id == c.author_id) with
      | some u => some (q, c, u)
      | none => none
    | none => none
  else none

/-- Handler `moderation_queue` in `routes/admin.py` (lines 919-997),
wrapped in `role_required(['SuperAdmin', 'Admin'])` (modelled as `none`).
SuperAdmin queries have no group condition; the Admin queries add
`bp.group_id = %s` respectively `p.group_id = %s` with the session group
as parameter (SQL NULL semantics, hence `sql_opt_eq`).  Blog items are
listed before page items. -/
def moderation_queue (sess : Session) (s : Store) :
    Option (List (QueueItem × ContentRow × UserRow)) :=
  if ¬ (sess.user_role = "SuperAdmin" ∨ sess.user_role = "Admin") then none
  else
    let blogsAll := s.queue.filterMap (join_queue_item s s.posts "blog_post")
    let pagesAll := s.queue.filterMap (join_queue_item s s.pages "page")
    if sess.user_role = "SuperAdmin" then some (blogsAll ++ pagesAll)
    else some
      (blogsAll.filter (fun x => sql_opt_eq x.2.1.group_id sess.group_id) ++
       pagesAll.filter (fun x => sql_opt_eq x.2.1.group_id sess.group_id))

/-- Raw integer form field as `admin.py create_user` reads it:
`absent` covers a missing, empty or `'0'` value (treated as not selected
before any `int()` conversion), `bad` a present value that fails `int()`,
`ok n` a parsed integer. -/
inductive FormInt
  | absent
  | bad
  | ok (n : Nat)
  deriving Repr, DecidableEq

/-- Form data for `create_user` (`routes/admin.py`).  The organization
fields carry the already-stripped strings. -/
structure CreateUserForm where
  username : String
  email : String
  password : String
  first_name : String
  last_name : String
  role_id : FormInt
  group_id : FormInt
  organization_name : String
  organization_description : String
  deriving Repr, DecidableEq

/-- Storage faults for the write statements of `create_user`: a psycopg2
exception raised by the user INSERT or by the group link UPDATE lands in
the handler's `except` clause, which calls `conn.rollback()`. -/
structure DbFaults where
  userInsertFails : Bool
  linkUpdateFails : Bool
  deriving Repr, DecidableEq

/-- Outcome of `create_user`. -/
inductive CreateUserResult
  | permissionRedirect
  | validationError (msg : String)
  | dbError
  | created (uid : Nat)
  deriving Repr, DecidableEq

/-- Credential hashing collaborator.  Modelled from the spec: the source
calls werkzeug's `generate_password_hash`, which is outside `src/`; the
spec treats hashing as a pluggable capability `hash(password) -> digest`,
so any fixed injective digest function serves the model. -/
def generate_password_hash (p : String) : String := "pbkdf2-sha256$" ++ p

/-- Handler `create_user` in `routes/admin.py` (POST branch, lines
154-315), wrapped in `role_required(['SuperAdmin', 'Admin'])`.  The
checks run in source order: required fields, role id parsing, group
handling (SuperAdmin parses the form group, Admin takes the session
group), username/email collision, role lookup, the Admin-only target-role
and group validations, the SuperAdmin-creates-Admin organization
auto-provisioning (name required, name unique, INSERT groups), the
remaining group requirement, the user INSERT, and the group link UPDATE.
All writes share one transaction: every error path returns the original
store (rollback), only the final path commits. -/
def create_user (sess : Session) (f : CreateUserForm) (faults : DbFaults)
    (s : Store) : Store × CreateUserResult :=
  if ¬ (sess.user_role = "SuperAdmin" ∨ sess.user_role = "Admin") then
    (s, CreateUserResult.permissionRedirect)
  else if f.username = "" ∨ f.email = "" ∨ f.password = "" then
    (s, CreateUserResult.validationError "Username, email, and password are required.")
  else
    match f.role_id with
    | FormInt.absent => (s, CreateUserResult.validationError "Please select a valid role.")
    | FormInt.bad => (s, CreateUserResult.validationError "Invalid role selected.")
    | FormInt.ok role_id =>
      if sess.user_role = "SuperAdmin" ∧ f.group_id = FormInt.bad then
        (s, CreateUserResult.validationError "Invalid group selected.")
      else
        let group_id0 : Option Nat :=
          if sess.user_role = "SuperAdmin" then
            match f.group_id with
            | FormInt.ok g => some g
            | _ => none
          else sess.group_id
        if s.users.any (fun u => u.username == f.username || u.email == f.email) then
          (s, CreateUserResult.validationError "Username or email already exists.")
        else
          match s.roles.find? (fun r => r.id == role_id) with
          | none => (s, CreateUserResult.validationError "Invalid role selected.")
          | some role =>
            if sess.user_role = "Admin" ∧ ¬ (role.name = "User" ∨ role.name = "SuperUser") then
              (s, CreateUserResult.validationError "You can only create User and SuperUser roles.")
            else if sess.user_role = "Admin" ∧ group_id0 = none then
              (s, CreateUserResult.validationError "Admin users must be assigned to a group.")
            else
              let orgStep : Except String (Store × Option Nat) :=
                if sess.user_role = "SuperAdmin" ∧ role.name = "Admin" then
                  if f.organization_name = "" then
                    Except.error "Organization name is required when creating an Admin user."
                  else if s.groups.any (fun g => g.name == f.organization_name) then
                    Except.error "Organization already exists. Please choose a different name."
                  else
                    let desc :=
                      if f.organization_description = "" then
                        "Organization for " ++ f.organization_name
                      else f.organization_description
                    let g : GroupRow :=
                      { id := s.nextGroupId, name := f.organization_name,
                        description := desc, admin_user_id := none, is_active := true }
                    Except.ok
                      ({ s with groups := s.groups ++ [g], nextGroupId := s.nextGroupId + 1 },
                       some g.id)
                else Except.ok (s, group_id0)
              match orgStep with
              | Except.error m => (s, CreateUserResult.validationError m)
              | Except.ok (s1, group_id1) =>
                if sess.user_role = "SuperAdmin" ∧ role.name ≠ "Admin" ∧
                    role.name ≠ "SuperAdmin" ∧ group_id1 = none then
                  (s, CreateUserResult.validationError "Please select an organization for this user.")
                else if faults.userInsertFails then (s, CreateUserResult.dbError)
                else
                  let uid := s1.nextUserId
                  let u : UserRow :=
                    { id := uid, username := f.username, email := f.email,
                      password_hash := generate_password_hash f.password,
                      first_name := f.first_name, last_name := f.last_name,
                      role_id := some role_id, group_id := group_id1,
                      is_active := true, is_banned := false }
                  let s2 := { s1 with users := s1.users ++ [u], nextUserId := uid + 1 }
                  if sess.user_role = "SuperAdmin" ∧ role.name = "Admin" ∧ group_id1.isSome then
                    if faults.linkUpdateFails then (s, CreateUserResult.dbError)
                    else
                      let linked := sqlUpdate (fun g => some g.id == group_id1)
                        (fun g => { g with admin_user_id := some uid }) s2.groups
                      ({ s2 with groups := linked }, CreateUserResult.created uid)
                  else (s2, CreateUserResult.created uid)

/-- Outcome of the public `register` route. -/
inductive RegisterResult
  | alreadyExists
  | created (uid : Nat)
  deriving Repr, DecidableEq

/-- Handler `register` in `app.py` (POST branch, lines 240-292).  Only
username, email, password, first and last name are read from the request;
the role is always looked up by name `'User'` and the INSERT names no
`group_id` column, so the column keeps its NULL default.  A welcome email
is sent to the new address. -/
def register (username email password first_name last_name : String)
    (s : Store) : Store × RegisterResult :=
  if s.users.any (fun u => u.username == username || u.email == email) then
    (s, RegisterResult.alreadyExists)
  else
    let default_role_id := (s.roles.find? (fun r => r.name == "User")).map (fun r => r.id)
    let u : UserRow :=
      { id := s.nextUserId, username := username, email := email,
        password_hash := generate_password_hash password,
        first_name := first_name, last_name := last_name,
        role_id := default_role_id, group_id := none,
        is_active := true, is_banned := false }
    ({ s with users := s.users ++ [u], nextUserId := s.nextUserId + 1,
              emails := s.emails ++
                [{ to_addr := email, recipient_name := first_name ++ " " ++ last_name,
                   content_type := "welcome", decision := "", notes := "" }] },
     RegisterResult.created u.id)

/-- Response the browser sees: flash message, flash category, and the
rendered template or redirect target. -/
structure VisibleResponse where
  flash : String
  category : String
  target : String
  deriving Repr, DecidableEq

/-- Handler `forgot_password` in `app.py` (POST branch, lines 457-506).
When the email matches an account, a reset token is stored and a reset
email is sent; either way the route flashes the same neutral success
message and redirects to the login page.  `tok` stands for the generated
`secrets.token_urlsafe(32)` value. -/
def forgot_password (email tok : String) (now : Nat) (s : Store) :
    Store × VisibleResponse :=
  if email = "" then
    (s, { flash := "Please enter your email address.", category := "danger",
          target := "forgot_password.html" })
  else
    match s.users.find? (fun u => u.email == email) with
    | some u =>
      ({ s with
          reset_tokens := s.reset_tokens ++
            [{ user_id := u.id, token := tok, expires_at := now + 3600 }],
          emails := s.emails ++
            [{ to_addr := u.email,
               recipient_name := u.first_name ++ " " ++ u.last_name,
               content_type := "password_reset", decision := "", notes := tok }] },
       { flash := "If an account with that email exists, a password reset link has been sent.",
         category := "success", target := "login" })
    | none =>
      (s, { flash := "If an account with that email exists, a password reset link has been sent.",
            category := "success", target := "login" })

/-- Outcome of `ban_user`. -/
inductive BanResult
  | permissionRedirect
  | notFound
  | denied
  | toggled (new_status : Bool)
  deriving Repr, DecidableEq

/-- Handler `ban_user` in `routes/admin.py` (lines 443-484), wrapped in
`role_required(['SuperAdmin', 'Admin'])`: fetch the user, deny an Admin
acting outside its own group (Python `!=` on nullable values, so two NULL
groups compare equal), then `UPDATE users SET is_banned = %s` with the
negation of the fetched value -- no other column is written. -/
def ban_user (sess : Session) (target_id : Nat) (s : Store) : Store × BanResult :=
  if ¬ (sess.user_role = "SuperAdmin" ∨ sess.user_role = "Admin") then
    (s, BanResult.permissionRedirect)
  else
    match s.users.find? (fun u => u.id == target_id) with
    | none => (s, BanResult.notFound)
    | some u =>
      if sess.user_role = "Admin" ∧ u.group_id ≠ sess.group_id then
        (s, BanResult.denied)
      else
        let new_status := ! u.is_banned
        let users1 := sqlUpdate (fun v => v.id == target_id)
          (fun v => { v with is_banned := new_status }) s.users
        ({ s with users := users1 }, BanResult.toggled new_status)

/-- Number of `pending` moderation queue items referencing a given content
record. -/
def pendingCount (s : Store) (ct : String) (cid : Nat) : Nat :=
  (s.queue.filter
    (fun q => q.content_type == ct && q.content_id == cid && q.status == "pending")).length

/-- Well-formedness of serial ids: every queue item referencing a blog
post references one whose id the `blog_posts` SERIAL sequence has already
produced.  This holds in every state the routes can reach, because the
only queue INSERT is for a freshly inserted post. -/
def wf_queue_ids (s : Store) : Prop :=
  ∀ q ∈ s.queue, q.content_type = "blog_post" → q.content_id < s.nextPostId

/-- Invariant claimed by the spec: at most one pending queue item per
content record. -/
def at_most_one_pending (s : Store) : Prop :=
  ∀ ct cid, pendingCount s ct cid ≤ 1

/-- Row-level constraints of the `moderation_queue` CREATE TABLE
(`init_db.py` lines 320-331): the only reference constraint is the
`reviewed_by REFERENCES users(id)` foreign key; `content_type` and
`content_id` are NOT NULL, which the structure encodes by not being
optional. -/
def moderation_queue_row_ok (users : List UserRow) (r : QueueItem) : Bool :=
  match r.reviewed_by with
  | some uid => users.any (fun u => u.id == uid)
  | none => true

/-- Table-level constraints of the `moderation_queue` schema: primary key
uniqueness of `id` plus the row constraints.  The schema declares no
UNIQUE constraint over `(content_type, content_id)`. -/
def moderation_queue_table_ok (users : List UserRow) (rows : List QueueItem) : Prop :=
  (rows.map (fun r => r.id)).Nodup ∧ ∀ r ∈ rows, moderation_queue_row_ok users r = true

theorem sqlUpdate_find? (p : α → Bool) (h : α → α)
    (hp : ∀ x, p (h x) = p x) (l : List α) :
    (sqlUpdate p h l).find? p = (l.find? p).map h := by
  induction l with
  | nil => rfl
  | cons a t ih =>
    by_cases hpa : p a = true
    · simp [sqlUpdate, List.find?, hpa, hp]
    · simp only [Bool.not_eq_true] at hpa
      simpa [sqlUpdate, List.find?, hpa, hp] using ih

theorem sqlUpdate_eq_self (p : α → Bool) (h : α → α) (l : List α)
    (hx : ∀ x ∈ l, p x = true → h x = x) : sqlUpdate p h l = l := by
  induction l with
  | nil => rfl
  | cons a t ih =>
    by_cases hpa : p a = true
    · simp [sqlUpdate, hpa, hx a (by simp) hpa] at *
      exact ih fun x hm => hx x (by simp [hm])
    · simp only [Bool.not_eq_true] at hpa
      simp [sqlUpdate, hpa] at *
      exact ih fun x hm => hx x (by simp [hm])

theorem sqlUpdate_sqlUpdate (p : α → Bool) (h g : α → α) (l : List α)
    (hg : ∀ x, p (g x) = p x) :
    sqlUpdate p h (sqlUpdate p g l) = sqlUpdate p (fun x => h (g x)) l := by
  induction l with
  | nil => rfl
  | cons a t ih =>
    by_cases hpa : p a = true
    · simp [sqlUpdate, hpa, hg] at *
      exact ih
    · simp only [Bool.not_eq_true] at hpa
      simp [sqlUpdate, hpa] at *
      exact ih

theorem length_filter_sqlUpdate_le (p f : α → Bool) (h : α → α) (l : List α)
    (hpf : ∀ x, p x = true → f (h x) = true → f x = true) :
    (List.filter f (sqlUpdate p h l)).length ≤ (l.filter f).length := by
  induction l with
  | nil => simp [sqlUpdate]
  | cons a t ih =>
    by_cases hpa : p a = true
    · by_cases hfa : f (h a) = true
      · have : f a = true := hpf a hpa hfa
        simp [sqlUpdate, hpa, hfa, List.filter, this] at *
        omega
      · simp only [Bool.not_eq_true] at hfa
        simp [sqlUpdate, hpa, hfa, List.filter] at *
        rcases Bool.eq_false_or_eq_true (f a) with hfa2 | hfa2 <;>
          simp [hfa2] <;> omega
    · simp only [Bool.not_eq_true] at hpa
      simp [sqlUpdate, hpa, List.filter] at *
      rcases Bool.eq_false_or_eq_true (f a) with hfa2 | hfa2 <;>
        simp [hfa2] <;> omega

/-- Role catalog with the four fixed role names. -/
def sampleRoles : List RoleRow :=
  [{ id := 1, name := "SuperAdmin" }, { id := 2, name := "Admin" },
   { id := 3, name := "SuperUser" }, { id := 4, name := "User" }]

/-- Store with the role catalog and no other rows. -/
def emptyStore : Store :=
  { users := [], roles := sampleRoles, groups := [], posts := [], pages := [],
    queue := [], reset_tokens := [], emails := [],
    nextUserId := 1, nextGroupId := 1, nextPostId := 1, nextQueueId := 1 }

/-- Sample author account (role User, tenant 1). -/
def bobRow : UserRow :=
  { id := 2, username := "bob", email := "bob@example.com",
    password_hash := "h", first_name := "Bob", last_name := "Builder",
    role_id := some 4, group_id := some 1, is_active := true, is_banned := false }

/-- Blog post of `modSampleStore`: already published at time 5. -/
def modSamplePost : ContentRow :=
  { id := 1, title := "Post", author_id := 2, group_id := some 1,
    is_published := true, published_at := some 5 }

/-- Queue item of `modSampleStore`: already resolved as approved. -/
def modSampleQueueItem : QueueItem :=
  { id := 1, content_type := "blog_post", content_id := 1,
    status := "approved", reviewed_by := some 9,
    review_notes := some "old notes", created_at := 0,
    reviewed_at := some 6 }

/-- Store with one tenant, one author, one already-published post whose
moderation queue item is already resolved as approved. -/
def modSampleStore : Store :=
  { users := [bobRow], roles := sampleRoles,
    groups := [{ id := 1, name := "Acme", description := "d",
                 admin_user_id := some 7, is_active := true }],
    posts := [modSamplePost],
    pages := [], reset_tokens := [], emails := [],
    queue := [modSampleQueueItem],
    nextUserId := 3, nextGroupId := 2, nextPostId := 2, nextQueueId := 2 }

/-- C9: the forgot-password route produces the same user-visible flash
message, flash category and redirect target for any two stores -- in
particular for one that contains an account with the supplied email and
one that does not -- so the response does not reveal account existence. -/
theorem c9_forgot_password_uniform_response (s1 s2 : Store)
    (email tok1 tok2 : String) (now1 now2 : Nat) (h : email ≠ "") :
    (forgot_password email tok1 now1 s1).2 = (forgot_password email tok2 now2 s2).2 := by
  unfold forgot_password
  simp only [if_neg h]
  cases s1.users.find? (fun u => u.email == email) <;>
    cases s2.users.find? (fun u => u.email == email) <;> rfl

/-- Witness for C9 at a concrete pair of stores: one contains an account
with the probed email, the other contains none. -/
theorem c9_forgot_password_uniform_response_witness :
    (forgot_password "bob@example.com" "tokA" 3 modSampleStore).2 =
      (forgot_password "bob@example.com" "tokB" 9 emptyStore).2 :=
  c9_forgot_password_uniform_response modSampleStore emptyStore
    "bob@example.com" "tokA" "tokB" 3 9 (by decide)

/-- C8: public registration always assigns the role row named `User` and
no group, whatever the five request fields contain; the route reads no
role or group field at all, so it can never produce an Admin, SuperAdmin
or SuperUser account. -/
theorem c8_register_least_privilege (username email password first_name last_name : String)
    (s : Store) (r : RoleRow)
    (hclash : s.users.any (fun u => u.username == username || u.email == email) = false)
    (hrole : s.roles.find? (fun v => v.name == "User") = some r) :
    (register username email password first_name last_name s).2 =
      RegisterResult.created s.nextUserId ∧
    ∃ u : UserRow,
      (register username email password first_name last_name s).1.users = s.users ++ [u] ∧
      u.role_id = some r.id ∧ u.group_id = none ∧ r.name = "User" := by
  have hname : r.name = "User" := by
    have := List.find?_some hrole
    simpa using this
  constructor
  · simp [register, hclash, hrole]
  · refine
      ⟨{ id := s.nextUserId, username := username, email := email,
         password_hash := generate_password_hash password,
         first_name := first_name, last_name := last_name,
         role_id := some r.id, group_id := none,
         is_active := true, is_banned := false }, ?_, rfl, rfl, hname⟩
    simp [register, hclash, hrole]

/-- Witness for C8: registering against the seeded role catalog yields an
account whose role is the row named `User` (id 4) and whose group is
NULL. -/
theorem c8_register_least_privilege_witness :
    (register "alice" "alice@example.com" "pw" "Alice" "A" emptyStore).2 =
      RegisterResult.created emptyStore.nextUserId ∧
    ∃ u : UserRow,
      (register "alice" "alice@example.com" "pw" "Alice" "A" emptyStore).1.users =
        emptyStore.users ++ [u] ∧
      u.role_id = some ({ id := 4, name := "User" } : RoleRow).id ∧
      u.group_id = none ∧ ({ id := 4, name := "User" } : RoleRow).name = "User" :=
  c8_register_least_privilege "alice" "alice@example.com" "pw" "Alice" "A"
    emptyStore { id := 4, name := "User" } (by decide) (by decide)

theorem ban_user_step (sess : Session) (target_id : Nat) (s : Store) (u : UserRow)
    (hrole : sess.user_role = "SuperAdmin" ∨ sess.user_role = "Admin")
    (hfind : s.users.find? (fun v => v.id == target_id) = some u)
    (hperm : sess.user_role = "Admin" → u.group_id = sess.group_id) :
    ban_user sess target_id s =
      ({ s with users := sqlUpdate (fun v => v.id == target_id) (fun v => { v with is_banned := ! u.is_banned }) s.users },
       BanResult.toggled (! u.is_banned)) := by
  have hnotdenied : ¬ (sess.user_role = "Admin" ∧ u.group_id ≠ sess.group_id) := by
    rintro ⟨hA, hne⟩
    exact hne (hperm hA)
  unfold ban_user
  rw [if_neg (not_not_intro hrole), hfind]
  simp [hnotdenied]

/-- C10: a successful ban flips exactly the `is_banned` flag of the target
user record, leaves every other field and every other user untouched, and
applying the operation twice restores the original user table. -/
theorem c10_ban_toggle_involutive (sess : Session) (target_id : Nat)
    (s : Store) (u : UserRow)
    (hrole : sess.user_role = "SuperAdmin" ∨ sess.user_role = "Admin")
    (hfind : s.users.find? (fun v => v.id == target_id) = some u)
    (hperm : sess.user_role = "Admin" → u.group_id = sess.group_id)
    (huniq : ∀ v ∈ s.users, v.id = u.id → v = u) :
    (ban_user sess target_id s).2 = BanResult.toggled (! u.is_banned) ∧
    (ban_user sess target_id s).1.users.find? (fun v => v.id == target_id) =
      some { u with is_banned := ! u.is_banned } ∧
    (∀ v ∈ s.users, v.id ≠ u.id → v ∈ (ban_user sess target_id s).1.users) ∧
    (ban_user sess target_id (ban_user sess target_id s).1).1.users = s.users := by
  have hid : u.id = target_id := by
    have := List.find?_some hfind
    simpa using this
  have hpres : ∀ v : UserRow,
      ((fun w : UserRow => w.id == target_id) ({ v with is_banned := ! u.is_banned })) =
      ((fun w : UserRow => w.id == target_id) v) := fun v => rfl
  have hstep := ban_user_step sess target_id s u hrole hfind hperm
  have hfind1 : (ban_user sess target_id s).1.users.find? (fun v => v.id == target_id) =
      some { u with is_banned := ! u.is_banned } := by
    rw [hstep]
    show (sqlUpdate (fun v : UserRow => v.id == target_id)
      (fun v => { v with is_banned := ! u.is_banned }) s.users).find?
        (fun v => v.id == target_id) = _
    rw [sqlUpdate_find? _ _ hpres, hfind]
    rfl
  refine ⟨by rw [hstep], hfind1, ?_, ?_⟩
  · intro v hv hne
    rw [hstep]
    simp only [sqlUpdate, List.mem_map]
    refine ⟨v, hv, ?_⟩
    have : (v.id == target_id) = false := by
      simp [hid ▸ hne]
    simp [this]
  · have hstep2 := ban_user_step sess target_id (ban_user sess target_id s).1
      { u with is_banned := ! u.is_banned } hrole hfind1 (fun hA => hperm hA)
    rw [hstep2, hstep]
    show sqlUpdate (fun v : UserRow => v.id == target_id)
        (fun v => { v with is_banned := ! (! u.is_banned) })
        (sqlUpdate (fun v : UserRow => v.id == target_id)
          (fun v => { v with is_banned := ! u.is_banned }) s.users) = s.users
    rw [sqlUpdate_sqlUpdate _ _ _ _ hpres]
    apply sqlUpdate_eq_self
    intro x hx hpx
    have hxid : x.id = target_id := by simpa using hpx
    have hxu : x = u := huniq x hx (by rw [hxid, hid])
    subst hxu
    simp

/-- Witness for C10: an Admin of tenant 1 bans the sample author; the flag
flips, the rest of the record survives, and a second ban restores the
original table. -/
theorem c10_ban_toggle_involutive_witness :
    (ban_user { user_id := 7, user_role := "Admin", group_id := some 1 } 2 modSampleStore).2 =
      BanResult.toggled (! bobRow.is_banned) ∧
    (ban_user { user_id := 7, user_role := "Admin", group_id := some 1 } 2 modSampleStore).1.users.find?
      (fun v => v.id == 2) = some { bobRow with is_banned := ! bobRow.is_banned } ∧
    (∀ v ∈ modSampleStore.users, v.id ≠ bobRow.id →
      v ∈ (ban_user { user_id := 7, user_role := "Admin", group_id := some 1 } 2 modSampleStore).1.users) ∧
    (ban_user { user_id := 7, user_role := "Admin", group_id := some 1 } 2
      (ban_user { user_id := 7, user_role := "Admin", group_id := some 1 } 2 modSampleStore).1).1.users =
      modSampleStore.users :=
  c10_ban_toggle_involutive { user_id := 7, user_role := "Admin", group_id := some 1 } 2
    modSampleStore bobRow (by decide) (by decide) (by decide) (by decide)

/-- C1: with the publish action, a logged-in `User` gets an unpublished
post (`is_published = false`, `published_at` NULL) together with exactly
one pending moderation queue item referencing it, while `SuperAdmin`,
`Admin` and `SuperUser` sessions get a published post with `published_at`
set and no queue insertion at all. -/
theorem c1_role_gated_publish (sess : Session) (f : CreatePostForm) (now : Nat)
    (s : Store) (hact : f.action = "publish") (hwf : wf_queue_ids s) :
    (sess.user_role = "User" →
      ∃ p : ContentRow, (create_post sess f now s).posts = s.posts ++ [p] ∧
        p.is_published = false ∧ p.published_at = none ∧
        pendingCount (create_post sess f now s) "blog_post" p.id = 1) ∧
    (sess.user_role = "SuperAdmin" ∨ sess.user_role = "Admin" ∨ sess.user_role = "SuperUser" →
      ∃ p : ContentRow, (create_post sess f now s).posts = s.posts ++ [p] ∧
        p.is_published = true ∧ p.published_at ≠ none ∧
        (create_post sess f now s).queue = s.queue) := by
  have ha : (f.action == "publish") = true := by rw [hact]; rfl
  constructor
  · intro hrole
    have hc : bypass_roles.contains sess.user_role = false := by rw [hrole]; rfl
    have hmem : sess.user_role ∉ bypass_roles := by rw [hrole]; decide
    have hold : s.queue.filter
        (fun q => q.content_type == "blog_post" && q.content_id == s.nextPostId &&
          q.status == "pending") = [] := by
      rw [List.filter_eq_nil_iff]
      intro q hq
      by_cases hct : q.content_type = "blog_post"
      · have hlt := hwf q hq hct
        simp only [Bool.and_eq_true, beq_iff_eq, not_and]
        intro _
        intro hcid
        omega
      · simp only [Bool.and_eq_true, beq_iff_eq, not_and]
        intro h1
        exact absurd h1.1 hct
    refine ⟨{ id := s.nextPostId, title := f.title, author_id := sess.user_id,
              group_id := sess.group_id, is_published := false,
              published_at := none }, ?_, rfl, rfl, ?_⟩
    · simp [create_post, ha, hc, hmem]
    · simp [pendingCount, create_post, ha, hc, hmem, List.filter_append, hold]
  · intro hrole
    have hc : bypass_roles.contains sess.user_role = true := by
      rcases hrole with h | h | h <;> rw [h] <;> rfl
    have hmem : sess.user_role ∈ bypass_roles := by
      rcases hrole with h | h | h <;> rw [h] <;> decide
    have hpub : (match f.publish_type == "scheduled", f.publish_date with
        | true, some v => some (v.getD now)
        | _, _ => some now) ≠ (none : Option Nat) := by
      cases h1 : f.publish_type == "scheduled" <;> cases h2 : f.publish_date <;> simp
    refine ⟨{ id := s.nextPostId, title := f.title, author_id := sess.user_id,
              group_id := sess.group_id, is_published := true,
              published_at := match f.publish_type == "scheduled", f.publish_date with
                | true, some v => some (v.getD now)
                | _, _ => some now }, ?_, rfl, hpub, ?_⟩
    · simp [create_post, ha, hc, hmem]
    · simp [create_post, ha, hc, hmem]

/-- Witness for C1 at a concrete input: the sample author (role `User`)
publishes against the sample store and the post lands unpublished with
exactly one pending queue item. -/
theorem c1_role_gated_publish_witness :
    ∃ p : ContentRow,
      (create_post { user_id := 2, user_role := "User", group_id := some 1 }
        { title := "T", content := "c", action := "publish",
          publish_type := "immediate", publish_date := none }
        10 modSampleStore).posts = modSampleStore.posts ++ [p] ∧
      p.is_published = false ∧ p.published_at = none ∧
      pendingCount (create_post { user_id := 2, user_role := "User", group_id := some 1 }
        { title := "T", content := "c", action := "publish",
          publish_type := "immediate", publish_date := none }
        10 modSampleStore) "blog_post" p.id = 1 :=
  (c1_role_gated_publish { user_id := 2, user_role := "User", group_id := some 1 }
    { title := "T", content := "c", action := "publish",
      publish_type := "immediate", publish_date := none }
    10 modSampleStore rfl (by unfold wf_queue_ids; decide)).1 rfl

/-- Counterexample to C2: in `modSampleStore` the queue item 1 is already
resolved (`approved`, reviewer 9, old notes) and its post already carries
`published_at = 5`.  Invoking approve again does not return an
already-resolved error: it succeeds, overwrites reviewer and notes, resets
the post's `published_at` to the new time, and sends a second author
notification.  Invoking reject on the same already-resolved item likewise
succeeds, flips its status to `rejected`, overwrites reviewer and notes,
and sends a second notification. -/
theorem c2_counterexample :
    ((approve_moderation { user_id := 7, user_role := "Admin", group_id := some 1 }
        1 "second review" 100 modSampleStore).2 = ModerationResult.approved ∧
    (approve_moderation { user_id := 7, user_role := "Admin", group_id := some 1 }
        1 "second review" 100 modSampleStore).1.emails.length =
      modSampleStore.emails.length + 1 ∧
    ((approve_moderation { user_id := 7, user_role := "Admin", group_id := some 1 }
        1 "second review" 100 modSampleStore).1.posts.find? (fun p => p.id == 1)).map
      (fun p => p.published_at) = some (some 100) ∧
    ((approve_moderation { user_id := 7, user_role := "Admin", group_id := some 1 }
        1 "second review" 100 modSampleStore).1.queue.find? (fun q => q.id == 1)).map
      (fun q => (q.reviewed_by, q.review_notes)) =
      some (some 7, some "second review")) ∧
    ((reject_moderation { user_id := 7, user_role := "Admin", group_id := some 1 }
        1 "second review" 100 modSampleStore).2 = ModerationResult.rejected ∧
    (reject_moderation { user_id := 7, user_role := "Admin", group_id := some 1 }
        1 "second review" 100 modSampleStore).1.emails.length =
      modSampleStore.emails.length + 1 ∧
    ((reject_moderation { user_id := 7, user_role := "Admin", group_id := some 1 }
        1 "second review" 100 modSampleStore).1.queue.find? (fun q => q.id == 1)).map
      (fun q => (q.status, q.reviewed_by, q.review_notes)) =
      some ("rejected", some 7, some "second review")) := by
  decide

/-- C2 as the code actually behaves: on an already-resolved item (status
`approved` or `rejected`), approve performs the full approval again --
status and reviewer and notes overwritten, blog content republished with a
fresh `published_at`, one more notification appended whenever the author
joins with a non-empty email -- and reject (given its independent
non-empty-notes validation) likewise re-resolves the item to `rejected`
with reviewer and notes overwritten, leaves the content untouched, and
appends one more notification. -/
theorem c2_amended_no_resolved_guard (sess : Session) (qid : Nat) (notes : String)
    (now : Nat) (s : Store) (item : QueueItem)
    (hrole : sess.user_role = "SuperAdmin" ∨ sess.user_role = "Admin")
    (hfind : s.queue.find? (fun q => q.id == qid) = some item)
    (_hres : item.status = "approved" ∨ item.status = "rejected")
    (hnotes : notes ≠ "") :
    ((approve_moderation sess qid notes now s).2 = ModerationResult.approved ∧
    (approve_moderation sess qid notes now s).1.queue.find? (fun q => q.id == qid) =
      some { item with status := "approved", reviewed_by := some sess.user_id,
                       reviewed_at := some now, review_notes := some notes } ∧
    (item.content_type = "blog_post" →
      (approve_moderation sess qid notes now s).1.posts =
        sqlUpdate (fun p => p.id == item.content_id)
          (fun p => { p with is_published := true, published_at := some now }) s.posts) ∧
    (∀ u : UserRow, author_of s item = some u → u.email ≠ "" →
      (approve_moderation sess qid notes now s).1.emails = s.emails ++
        [{ to_addr := u.email, recipient_name := u.first_name ++ " " ++ u.last_name,
           content_type := item.content_type, decision := "approved", notes := notes }])) ∧
    ((reject_moderation sess qid notes now s).2 = ModerationResult.rejected ∧
    (reject_moderation sess qid notes now s).1.queue.find? (fun q => q.id == qid) =
      some { item with status := "rejected", reviewed_by := some sess.user_id,
                       reviewed_at := some now, review_notes := some notes } ∧
    (reject_moderation sess qid notes now s).1.posts = s.posts ∧
    (∀ u : UserRow, author_of s item = some u → u.email ≠ "" →
      (reject_moderation sess qid notes now s).1.emails = s.emails ++
        [{ to_addr := u.email, recipient_name := u.first_name ++ " " ++ u.last_name,
           content_type := item.content_type, decision := "rejected", notes := notes }])) := by
  constructor
  · have hqpres : ∀ q : QueueItem,
        ((fun w : QueueItem => w.id == qid)
          ({ q with status := "approved", reviewed_by := some sess.user_id,
                    reviewed_at := some now, review_notes := some notes })) =
        ((fun w : QueueItem => w.id == qid) q) := fun q => rfl
    have hq : (sqlUpdate (fun q : QueueItem => q.id == qid) (fun q => { q with status := "approved", reviewed_by := some sess.user_id, reviewed_at := some now, review_notes := some notes }) s.queue).find? (fun q => q.id == qid) = some { item with status := "approved", reviewed_by := some sess.user_id, reviewed_at := some now, review_notes := some notes } := by
      rw [sqlUpdate_find? _ _ hqpres, hfind]
      rfl
    unfold approve_moderation
    rw [if_neg (not_not_intro hrole), hfind]
    refine ⟨rfl, ?_, ?_, ?_⟩
    · cases hau : author_of s item with
      | none =>
        simp only [hau]
        split <;> (try split) <;> exact hq
      | some u =>
        simp only [hau]
        split <;> (try split) <;> (try split) <;> exact hq
    · intro hblog
      cases hau : author_of s item with
      | none =>
        simp only [hau, hblog]
        rfl
      | some u =>
        simp only [hau, hblog]
        split <;> rfl
    · intro u hau hne
      simp only [hau, if_neg hne]
      split <;> (try split) <;> rfl
  · have hqpres2 : ∀ q : QueueItem,
        ((fun w : QueueItem => w.id == qid)
          ({ q with status := "rejected", reviewed_by := some sess.user_id,
                    reviewed_at := some now, review_notes := some notes })) =
        ((fun w : QueueItem => w.id == qid) q) := fun q => rfl
    have hq2 : (sqlUpdate (fun q : QueueItem => q.id == qid) (fun q => { q with status := "rejected", reviewed_by := some sess.user_id, reviewed_at := some now, review_notes := some notes }) s.queue).find? (fun q => q.id == qid) = some { item with status := "rejected", reviewed_by := some sess.user_id, reviewed_at := some now, review_notes := some notes } := by
      rw [sqlUpdate_find? _ _ hqpres2, hfind]
      rfl
    unfold reject_moderation
    rw [if_neg (not_not_intro hrole), if_neg hnotes, hfind]
    refine ⟨rfl, ?_, ?_, ?_⟩
    · cases hau : author_of s item with
      | none =>
        simp only [hau]
        exact hq2
      | some u =>
        simp only [hau]
        split <;> exact hq2
    · cases hau : author_of s item with
      | none =>
        simp only [hau]
      | some u =>
        simp only [hau]
        split <;> rfl
    · intro u hau hne
      simp only [hau, if_neg hne]

/-- Witness for C2's amended statement at the sample store: approving the
already-approved item 1 again succeeds and overwrites its resolution with
a fresh notification, and rejecting it likewise re-resolves it to
`rejected` with another notification. -/
theorem c2_amended_no_resolved_guard_witness :
    (approve_moderation { user_id := 7, user_role := "Admin", group_id := some 1 }
        1 "again" 200 modSampleStore).1.queue.find? (fun q => q.id == 1) =
      some { modSampleQueueItem with status := "approved", reviewed_by := some 7, reviewed_at := some 200, review_notes := some "again" } ∧
    (approve_moderation { user_id := 7, user_role := "Admin", group_id := some 1 }
        1 "again" 200 modSampleStore).1.emails = modSampleStore.emails ++
      [{ to_addr := bobRow.email, recipient_name := bobRow.first_name ++ " " ++ bobRow.last_name,
         content_type := modSampleQueueItem.content_type, decision := "approved",
         notes := "again" }] ∧
    (reject_moderation { user_id := 7, user_role := "Admin", group_id := some 1 }
        1 "again" 200 modSampleStore).1.queue.find? (fun q => q.id == 1) =
      some { modSampleQueueItem with status := "rejected", reviewed_by := some 7, reviewed_at := some 200, review_notes := some "again" } ∧
    (reject_moderation { user_id := 7, user_role := "Admin", group_id := some 1 }
        1 "again" 200 modSampleStore).1.posts = modSampleStore.posts ∧
    (reject_moderation { user_id := 7, user_role := "Admin", group_id := some 1 }
        1 "again" 200 modSampleStore).1.emails = modSampleStore.emails ++
      [{ to_addr := bobRow.email, recipient_name := bobRow.first_name ++ " " ++ bobRow.last_name,
         content_type := modSampleQueueItem.content_type, decision := "rejected",
         notes := "again" }] := by
  have h := c2_amended_no_resolved_guard
    { user_id := 7, user_role := "Admin", group_id := some 1 }
    1 "again" 200 modSampleStore modSampleQueueItem
    (by decide) (by decide) (by decide) (by decide)
  exact ⟨h.1.2.1, h.1.2.2.2 bobRow (by decide) (by decide), h.2.2.1, h.2.2.2.1,
    h.2.2.2.2 bobRow (by decide) (by decide)⟩

/-- Counterexample to C3: in `modSampleStore` post 1 already carries
`published_at = 5`.  The author saving the post back as draft clears the
timestamp to NULL, and the approve handler overwrites it with the approval
time -- so `published_at` is neither set-once nor never-erased. -/
theorem c3_counterexample :
    ((modSampleStore.posts.find? (fun p => p.id == 1)).map (fun p => p.published_at) =
      some (some 5)) ∧
    (((edit_post { user_id := 2, user_role := "User", group_id := some 1 } 1
        { title := "Post", content := "b", action := "draft",
          publish_type := "immediate", publish_date := none }
        100 modSampleStore).1.posts.find? (fun p => p.id == 1)).map
      (fun p => p.published_at) = some none) ∧
    (((approve_moderation { user_id := 7, user_role := "Admin", group_id := some 1 }
        1 "ok" 300 modSampleStore).1.posts.find? (fun p => p.id == 1)).map
      (fun p => p.published_at) = some (some 300)) := by
  decide

theorem edit_post_step (sess : Session) (pid : Nat) (f : EditPostForm) (now : Nat)
    (s : Store) (post : ContentRow)
    (hfind : s.posts.find? (fun p => p.id == pid) = some post)
    (hperm : sess.user_role = "SuperAdmin" ∨ sess.user_role = "Admin" ∨
      post.author_id = sess.user_id) :
    edit_post sess pid f now s =
      ({ s with posts := sqlUpdate (fun p => p.id == pid) (fun p => { p with title := f.title, is_published := (f.action == "publish"), published_at := if (f.action == "publish") = true then (match f.publish_type == "scheduled", f.publish_date with | true, some v => some (v.getD now) | _, _ => if post.published_at = none then some now else post.published_at) else none }) s.posts },
       EditResult.updated) := by
  have hnodeny : ¬ (¬ (sess.user_role = "SuperAdmin" ∨ sess.user_role = "Admin") ∧
      post.author_id ≠ sess.user_id) := by
    rintro ⟨hnr, hna⟩
    rcases hperm with h | h | h
    · exact hnr (Or.inl h)
    · exact hnr (Or.inr h)
    · exact hna h
  unfold edit_post
  rw [hfind]
  show (if ¬ (sess.user_role = "SuperAdmin" ∨ sess.user_role = "Admin") ∧
      post.author_id ≠ sess.user_id then (s, EditResult.permissionDenied) else _) = _
  rw [if_neg hnodeny]

/-- C3 as the code actually behaves: an already-set `published_at`
survives only an immediate (non-scheduled) re-publish through `edit_post`;
a draft save clears it, a scheduled re-publish overwrites it with the
supplied date, and `approve_moderation` overwrites it with the approval
time (shown separately by `c2_amended_no_resolved_guard` and the C3
counterexample). -/
theorem c3_amended_published_at_not_set_once
    (sess : Session) (pid : Nat) (f : EditPostForm) (now : Nat) (s : Store)
    (post : ContentRow) (t : Nat)
    (hfind : s.posts.find? (fun p => p.id == pid) = some post)
    (hperm : sess.user_role = "SuperAdmin" ∨ sess.user_role = "Admin" ∨
      post.author_id = sess.user_id)
    (hpub : post.published_at = some t) :
    (f.action = "publish" → (f.publish_type ≠ "scheduled" ∨ f.publish_date = none) →
      (edit_post sess pid f now s).1.posts.find? (fun p => p.id == pid) =
        some { post with title := f.title, is_published := true, published_at := some t }) ∧
    (f.action ≠ "publish" →
      (edit_post sess pid f now s).1.posts.find? (fun p => p.id == pid) =
        some { post with title := f.title, is_published := false, published_at := none }) ∧
    (∀ d : Nat, f.action = "publish" → f.publish_type = "scheduled" →
      f.publish_date = some (some d) →
      (edit_post sess pid f now s).1.posts.find? (fun p => p.id == pid) =
        some { post with title := f.title, is_published := true, published_at := some d }) := by
  have hstep := edit_post_step sess pid f now s post hfind hperm
  have hppres : ∀ v : ContentRow,
      ((fun w : ContentRow => w.id == pid)
        ({ v with title := f.title, is_published := (f.action == "publish"), published_at := if (f.action == "publish") = true then (match f.publish_type == "scheduled", f.publish_date with | true, some v => some (v.getD now) | _, _ => if post.published_at = none then some now else post.published_at) else none })) =
      ((fun w : ContentRow => w.id == pid) v) := fun v => rfl
  have hfind1 : (edit_post sess pid f now s).1.posts.find? (fun p => p.id == pid) =
      some { post with title := f.title, is_published := (f.action == "publish"), published_at := if (f.action == "publish") = true then (match f.publish_type == "scheduled", f.publish_date with | true, some v => some (v.getD now) | _, _ => if post.published_at = none then some now else post.published_at) else none } := by
    rw [hstep]
    show (sqlUpdate (fun p : ContentRow => p.id == pid) _ s.posts).find?
      (fun p => p.id == pid) = _
    rw [sqlUpdate_find? _ _ hppres, hfind]
    rfl
  refine ⟨?_, ?_, ?_⟩
  · intro hact hsch
    have ha : (f.action == "publish") = true := by rw [hact]; rfl
    rw [hfind1, ha]
    rcases hsch with h | h
    · have hb : (f.publish_type == "scheduled") = false := by simp [h]
      rw [hb]
      simp [hpub]
    · rw [h]
      cases hb : f.publish_type == "scheduled" <;> simp [hpub]
  · intro hact
    have ha : (f.action == "publish") = false := by simp [hact]
    rw [hfind1, ha]
    simp
  · intro d hact hsch hdate
    have ha : (f.action == "publish") = true := by rw [hact]; rfl
    have hs : (f.publish_type == "scheduled") = true := by rw [hsch]; rfl
    rw [hfind1, ha, hs, hdate]
    simp

/-- Witness for C3's amended statement: against the sample store, post 1
(already published at time 5) keeps its timestamp under an immediate
re-publish and loses it under a draft save. -/
theorem c3_amended_published_at_not_set_once_witness :
    (edit_post { user_id := 2, user_role := "User", group_id := some 1 } 1
      { title := "Post", content := "b", action := "publish",
        publish_type := "immediate", publish_date := none }
      100 modSampleStore).1.posts.find? (fun p => p.id == 1) =
      some { modSamplePost with title := "Post", is_published := true, published_at := some 5 } ∧
    (edit_post { user_id := 2, user_role := "User", group_id := some 1 } 1
      { title := "Post", content := "b", action := "draft",
        publish_type := "immediate", publish_date := none }
      100 modSampleStore).1.posts.find? (fun p => p.id == 1) =
      some { modSamplePost with title := "Post", is_published := false, published_at := none } := by
  have h1 := c3_amended_published_at_not_set_once
    { user_id := 2, user_role := "User", group_id := some 1 } 1
    { title := "Post", content := "b", action := "publish",
      publish_type := "immediate", publish_date := none }
    100 modSampleStore modSamplePost 5 (by decide) (by decide) (by decide)
  have h2 := c3_amended_published_at_not_set_once
    { user_id := 2, user_role := "User", group_id := some 1 } 1
    { title := "Post", content := "b", action := "draft",
      publish_type := "immediate", publish_date := none }
    100 modSampleStore modSamplePost 5 (by decide) (by decide) (by decide)
  exact ⟨h1.1 rfl (Or.inl (by decide)), h2.2.1 (by decide)⟩

/-- Store in which content record 5 already has a pending queue item while
the `blog_posts` SERIAL sequence stands at 5 -- the situation the claim's
`AlreadyPending` rejection is about.  The schema admits this state (see
`c4_counterexample`). -/
def resubmitStore : Store :=
  { users := [], roles := sampleRoles, groups := [], posts := [], pages := [],
    queue := [{ id := 1, content_type := "blog_post", content_id := 5,
                status := "pending", reviewed_by := none, review_notes := none,
                created_at := 0, reviewed_at := none }],
    reset_tokens := [], emails := [],
    nextUserId := 1, nextGroupId := 1, nextPostId := 5, nextQueueId := 2 }

/-- Counterexample to C4: no `AlreadyPending` failure exists anywhere in
the code and the `moderation_queue` schema carries no uniqueness
constraint over `(content_type, content_id)`.  Concretely, submitting a
post for moderation when a pending item for that `(contentType,
contentId)` pair already exists succeeds and leaves two pending items, and
a table holding two identical pending references satisfies every declared
schema constraint. -/
theorem c4_counterexample :
    pendingCount resubmitStore "blog_post" 5 = 1 ∧
    pendingCount (create_post { user_id := 2, user_role := "User", group_id := none }
      { title := "T", content := "c", action := "publish",
        publish_type := "immediate", publish_date := none }
      10 resubmitStore) "blog_post" 5 = 2 ∧
    moderation_queue_table_ok []
      [{ id := 1, content_type := "blog_post", content_id := 5, status := "pending",
         reviewed_by := none, review_notes := none, created_at := 0, reviewed_at := none },
       { id := 2, content_type := "blog_post", content_id := 5, status := "pending",
         reviewed_by := none, review_notes := none, created_at := 1, reviewed_at := none }] := by
  refine ⟨by decide, by decide, ?_, ?_⟩
  · decide
  · decide

theorem filter_fresh_queue (s : Store) (hwf : wf_queue_ids s) :
    s.queue.filter
      (fun q => q.content_type == "blog_post" && q.content_id == s.nextPostId &&
        q.status == "pending") = [] := by
  rw [List.filter_eq_nil_iff]
  intro q hq
  by_cases hct : q.content_type = "blog_post"
  · have hlt := hwf q hq hct
    simp only [Bool.and_eq_true, beq_iff_eq, not_and]
    intro _ hcid
    omega
  · simp only [Bool.and_eq_true, beq_iff_eq, not_and]
    intro h1
    exact absurd h1.1 hct

/-- C4 as the code actually behaves: the at-most-one-pending-item
invariant is preserved by every modelled operation -- `create_post` only
ever enqueues a freshly inserted post id (given the SERIAL
well-formedness, which it also preserves), resolution only moves items
out of `pending`, and `edit_post` never touches the queue -- but no
`AlreadyPending` error and no uniqueness constraint enforce it. -/
theorem c4_amended_invariant_preserved (sess : Session) (f : CreatePostForm)
    (now : Nat) (s : Store) :
    (wf_queue_ids s → wf_queue_ids (create_post sess f now s)) ∧
    (wf_queue_ids s → at_most_one_pending s →
      at_most_one_pending (create_post sess f now s)) ∧
    (∀ sess2 qid notes now2, at_most_one_pending s →
      at_most_one_pending ((approve_moderation sess2 qid notes now2 s).1)) ∧
    (∀ sess2 qid notes now2, at_most_one_pending s →
      at_most_one_pending ((reject_moderation sess2 qid notes now2 s).1)) ∧
    (∀ pid f2, ((edit_post sess pid f2 now s).1).queue = s.queue) := by
  have happrove_status : ∀ (sess2 : Session) (notes : String) (now2 : Nat)
      (ct : String) (cid : Nat) (x : QueueItem),
      (fun q : QueueItem => q.content_type == ct && q.content_id == cid &&
        q.status == "pending")
        ({ x with status := "approved", reviewed_by := some sess2.user_id,
                  reviewed_at := some now2, review_notes := some notes }) = true →
      (fun q : QueueItem => q.content_type == ct && q.content_id == cid &&
        q.status == "pending") x = true := by
    intro sess2 notes now2 ct cid x hx
    simp at hx
  have hreject_status : ∀ (sess2 : Session) (notes : String) (now2 : Nat)
      (ct : String) (cid : Nat) (x : QueueItem),
      (fun q : QueueItem => q.content_type == ct && q.content_id == cid &&
        q.status == "pending")
        ({ x with status := "rejected", reviewed_by := some sess2.user_id,
                  reviewed_at := some now2, review_notes := some notes }) = true →
      (fun q : QueueItem => q.content_type == ct && q.content_id == cid &&
        q.status == "pending") x = true := by
    intro sess2 notes now2 ct cid x hx
    simp at hx
  refine ⟨?_, ?_, ?_, ?_, ?_⟩
  · intro hwf
    intro q hq hct
    simp only [create_post] at hq ⊢
    by_cases hneed : (f.action == "publish" && ! bypass_roles.contains sess.user_role) = true
    · rw [if_pos hneed] at hq ⊢
      simp only [List.mem_append, List.mem_singleton] at hq
      rcases hq with hq | hq
      · have := hwf q hq hct
        show q.content_id < s.nextPostId + 1
        omega
      · subst hq
        show s.nextPostId < s.nextPostId + 1
        omega
    · rw [if_neg hneed] at hq ⊢
      have := hwf q hq hct
      show q.content_id < s.nextPostId + 1
      omega
  · intro hwf hamop ct cid
    have hfresh := filter_fresh_queue s hwf
    have hamop2 := hamop ct cid
    unfold at_most_one_pending pendingCount at hamop2
    unfold pendingCount
    simp only [create_post]
    by_cases hneed : (f.action == "publish" && ! bypass_roles.contains sess.user_role) = true
    · rw [if_pos hneed]
      simp only [List.filter_append, List.length_append]
      by_cases hmatch : (("blog_post" == ct) && (s.nextPostId == cid)) = true
      · simp only [Bool.and_eq_true, beq_iff_eq] at hmatch
        rcases hmatch with ⟨hc1, hc2⟩
        subst hc1
        subst hc2
        rw [hfresh]
        simp
      · have : (List.filter (fun q => q.content_type == ct && q.content_id == cid &&
            q.status == "pending")
            [({ id := s.nextQueueId, content_type := "blog_post",
                content_id := s.nextPostId, status := "pending", reviewed_by := none,
                review_notes := none, created_at := now, reviewed_at := none } : QueueItem)]).length = 0 := by
          simp only [Bool.and_eq_true, beq_iff_eq, Bool.not_eq_true] at hmatch ⊢
          simp only [List.filter, List.length]
          by_cases hb : ("blog_post" : String) = ct
          · by_cases hn : s.nextPostId = cid
            · exact absurd ⟨hb, hn⟩ hmatch
            · have hf : (s.nextPostId == cid) = false := by simp [hn]
              simp [hb, hf]
          · have hf : (("blog_post" : String) == ct) = false := by simp [hb]
            simp [hf]
        rw [this]
        simpa using hamop2
    · rw [if_neg hneed]
      exact hamop2
  · intro sess2 qid notes now2 hamop ct cid
    unfold approve_moderation
    split
    · exact hamop ct cid
    · split
      · exact hamop ct cid
      · unfold pendingCount
        split <;> (try split) <;> (try split) <;> (try split) <;>
          exact le_trans
            (length_filter_sqlUpdate_le _ _ _ _
              (fun x _ hfx => happrove_status sess2 notes now2 ct cid x hfx))
            (hamop ct cid)
  · intro sess2 qid notes now2 hamop ct cid
    unfold reject_moderation
    split
    · exact hamop ct cid
    · split
      · exact hamop ct cid
      · split
        · exact hamop ct cid
        · unfold pendingCount
          split <;> (try split) <;>
            exact le_trans
              (length_filter_sqlUpdate_le _ _ _ _
                (fun x _ hfx => hreject_status sess2 notes now2 ct cid x hfx))
              (hamop ct cid)
  · intro pid f2
    unfold edit_post
    split
    · rfl
    · split <;> rfl

/-- Witness for C4's amended statement at the sample store: the invariant
holds after a publish by the sample author, after a fresh approve and
reject, and an edit leaves the queue untouched. -/
theorem c4_amended_invariant_preserved_witness :
    at_most_one_pending (create_post { user_id := 2, user_role := "User", group_id := some 1 }
      { title := "T", content := "c", action := "publish",
        publish_type := "immediate", publish_date := none } 10 modSampleStore) ∧
    at_most_one_pending ((approve_moderation { user_id := 7, user_role := "Admin", group_id := some 1 }
      1 "n" 20 modSampleStore).1) ∧
    at_most_one_pending ((reject_moderation { user_id := 7, user_role := "Admin", group_id := some 1 }
      1 "n" 20 modSampleStore).1) ∧
    ((edit_post { user_id := 2, user_role := "User", group_id := some 1 } 1
      { title := "T", content := "c", action := "draft",
        publish_type := "immediate", publish_date := none }
      10 modSampleStore).1).queue = modSampleStore.queue := by
  have hwf : wf_queue_ids modSampleStore := by unfold wf_queue_ids; decide
  have hamop : at_most_one_pending modSampleStore := by
    intro ct cid
    simp [pendingCount, modSampleStore, modSampleQueueItem]
  have h := c4_amended_invariant_preserved
    { user_id := 2, user_role := "User", group_id := some 1 }
    { title := "T", content := "c", action := "publish",
      publish_type := "immediate", publish_date := none } 10 modSampleStore
  exact ⟨h.2.1 hwf hamop,
    h.2.2.1 { user_id := 7, user_role := "Admin", group_id := some 1 } 1 "n" 20 hamop,
    h.2.2.2.1 { user_id := 7, user_role := "Admin", group_id := some 1 } 1 "n" 20 hamop,
    h.2.2.2.2 1 { title := "T", content := "c", action := "draft", publish_type := "immediate", publish_date := none }⟩

theorem sql_opt_eq_some (b : Option Nat) (a : Nat) (h : sql_opt_eq b (some a) = true) :
    b = some a := by
  cases b with
  | none => simp [sql_opt_eq] at h
  | some y =>
    simp [sql_opt_eq] at h
    rw [h]

/-- C5: the pending-moderation listing of an Admin whose session group is
tenant A contains only items whose joined content belongs to tenant A,
while a SuperAdmin listing contains every pending queue item that joins
with its content and author, whatever the group. -/
theorem c5_tenant_scoped_listing (sess : Session) (s : Store) (A : Nat)
    (hrole : sess.user_role = "Admin") (hgrp : sess.group_id = some A) :
    (∀ L, moderation_queue sess s = some L →
      ∀ x ∈ L, x.2.1.group_id = some A) ∧
    (∀ sa : Session, sa.user_role = "SuperAdmin" →
      ∀ L, moderation_queue sa s = some L →
        ∀ q ∈ s.queue, ∀ x,
          (join_queue_item s s.posts "blog_post" q = some x ∨
           join_queue_item s s.pages "page" q = some x) → x ∈ L) := by
  constructor
  · intro L hL x hx
    have hna : ¬ ¬ (sess.user_role = "SuperAdmin" ∨ sess.user_role = "Admin") :=
      not_not_intro (Or.inr hrole)
    have hnsa : ¬ sess.user_role = "SuperAdmin" := by
      rw [hrole]
      decide
    unfold moderation_queue at hL
    rw [if_neg hna, if_neg hnsa] at hL
    injection hL with hL
    subst hL
    rw [List.mem_append] at hx
    rcases hx with hx | hx <;>
    · rw [List.mem_filter] at hx
      have := hx.2
      rw [hgrp] at this
      exact sql_opt_eq_some _ _ this
  · intro sa hsa L hL q hq x hjoin
    have hna : ¬ ¬ (sa.user_role = "SuperAdmin" ∨ sa.user_role = "Admin") :=
      not_not_intro (Or.inl hsa)
    unfold moderation_queue at hL
    rw [if_neg hna, if_pos hsa] at hL
    injection hL with hL
    subst hL
    rw [List.mem_append]
    rcases hjoin with hj | hj
    · exact Or.inl (List.mem_filterMap.mpr ⟨q, hq, hj⟩)
    · exact Or.inr (List.mem_filterMap.mpr ⟨q, hq, hj⟩)

/-- Witness for C5: an Admin of tenant 1 lists the sample store (whose
only pending-item candidate is resolved, and whose content belongs to
tenant 1); every listed item's content group is tenant 1, and the
SuperAdmin listing contains every joining pending item. -/
theorem c5_tenant_scoped_listing_witness :
    (∀ L, moderation_queue { user_id := 7, user_role := "Admin", group_id := some 1 }
        modSampleStore = some L → ∀ x ∈ L, x.2.1.group_id = some 1) ∧
    (∀ sa : Session, sa.user_role = "SuperAdmin" →
      ∀ L, moderation_queue sa modSampleStore = some L →
        ∀ q ∈ modSampleStore.queue, ∀ x,
          (join_queue_item modSampleStore modSampleStore.posts "blog_post" q = some x ∨
           join_queue_item modSampleStore modSampleStore.pages "page" q = some x) → x ∈ L) :=
  c5_tenant_scoped_listing { user_id := 7, user_role := "Admin", group_id := some 1 }
    modSampleStore 1 rfl rfl

/-- C6: `SuperUser` and `User` sessions are turned away by the
`role_required` wrapper before any work happens; an Admin session that
succeeds has created an account whose role row is named `User` or
`SuperUser` and whose group is the Admin's own session group; and an
Admin request naming any other role is rejected with the permission
message and leaves the store unchanged. -/
theorem c6_admin_creation_rules (sess : Session) (f : CreateUserForm)
    (faults : DbFaults) (s : Store) :
    (sess.user_role = "User" ∨ sess.user_role = "SuperUser" →
      create_user sess f faults s = (s, CreateUserResult.permissionRedirect)) ∧
    (sess.user_role = "Admin" →
      ∀ uid, (create_user sess f faults s).2 = CreateUserResult.created uid →
        ∃ u : UserRow, (create_user sess f faults s).1.users = s.users ++ [u] ∧
          u.id = uid ∧ u.group_id = sess.group_id ∧
          ∃ role ∈ s.roles, u.role_id = some role.id ∧
            (role.name = "User" ∨ role.name = "SuperUser")) ∧
    (∀ rid role, sess.user_role = "Admin" → f.role_id = FormInt.ok rid →
      ¬ (f.username = "" ∨ f.email = "" ∨ f.password = "") →
      s.users.any (fun u => u.username == f.username || u.email == f.email) = false →
      s.roles.find? (fun r => r.id == rid) = some role →
      ¬ (role.name = "User" ∨ role.name = "SuperUser") →
      create_user sess f faults s =
        (s, CreateUserResult.validationError "You can only create User and SuperUser roles.")) := by
  refine ⟨?_, ?_, ?_⟩
  · rintro (h | h) <;> simp [create_user, h]
  · intro hrole uid hres
    unfold create_user at hres
    rw [if_neg (not_not_intro (Or.inr hrole))] at hres
    simp only [hrole, String.reduceEq, reduceIte, false_and, true_and, if_false] at hres
    by_cases h1 : (f.username = "" ∨ f.email = "" ∨ f.password = "")
    · rw [if_pos h1] at hres
      exact absurd hres (by simp)
    · rw [if_neg h1] at hres
      cases hrid : f.role_id with
      | absent =>
        simp only [hrid] at hres
        exact absurd hres (by simp)
      | bad =>
        simp only [hrid] at hres
        exact absurd hres (by simp)
      | ok rid =>
        simp only [hrid] at hres
        cases hany : s.users.any fun u => u.username == f.username || u.email == f.email with
        | true =>
          simp only [hany, if_true] at hres
          exact absurd hres (by simp)
        | false =>
          simp only [hany, Bool.false_eq_true, if_false] at hres
          cases hfind : s.roles.find? (fun r => r.id == rid) with
          | none =>
            simp only [hfind] at hres
            exact absurd hres (by simp)
          | some role =>
            simp only [hfind] at hres
            by_cases hgood : (role.name = "User" ∨ role.name = "SuperUser")
            · rw [if_neg (not_not_intro hgood)] at hres
              by_cases hgrp : sess.group_id = none
              · rw [if_pos hgrp] at hres
                exact absurd hres (by simp)
              · rw [if_neg hgrp] at hres
                cases hfault : faults.userInsertFails with
                | true =>
                  simp only [hfault, if_true] at hres
                  exact absurd hres (by simp)
                | false =>
                  simp only [hfault, Bool.false_eq_true, if_false] at hres
                  have hstore : create_user sess f faults s =
                      ({ s with users := s.users ++ [{ id := s.nextUserId, username := f.username, email := f.email, password_hash := generate_password_hash f.password, first_name := f.first_name, last_name := f.last_name, role_id := some rid, group_id := sess.group_id, is_active := true, is_banned := false }], nextUserId := s.nextUserId + 1 },
                       CreateUserResult.created s.nextUserId) := by
                    unfold create_user
                    rw [if_neg (not_not_intro (Or.inr hrole))]
                    simp only [hrole, String.reduceEq, reduceIte, false_and, true_and, if_false]
                    rw [if_neg h1]
                    simp only [hrid]
                    simp only [hany, Bool.false_eq_true, if_false]
                    simp only [hfind]
                    rw [if_neg (not_not_intro hgood)]
                    rw [if_neg hgrp]
                    simp only [hfault, Bool.false_eq_true, if_false]
                  have huid : uid = s.nextUserId := by
                    simp only [CreateUserResult.created.injEq] at hres
                    omega
                  have hrid_eq : role.id = rid := by
                    have := List.find?_some hfind
                    simpa using this
                  refine ⟨{ id := s.nextUserId, username := f.username, email := f.email, password_hash := generate_password_hash f.password, first_name := f.first_name, last_name := f.last_name, role_id := some rid, group_id := sess.group_id, is_active := true, is_banned := false }, ?_, ?_, rfl, role, List.mem_of_find?_eq_some hfind, ?_, hgood⟩
                  · rw [hstore]
                  · simpa using huid.symm
                  · rw [hrid_eq]
            · rw [if_pos hgood] at hres
              exact absurd hres (by simp)
  · intro rid role hrole hrid hreq hany hfind hbad
    unfold create_user
    rw [if_neg (not_not_intro (Or.inr hrole))]
    simp only [hrole, String.reduceEq, reduceIte, false_and, true_and, if_false]
    rw [if_neg hreq]
    simp only [hrid]
    simp only [hany, Bool.false_eq_true, if_false]
    simp only [hfind]
    rw [if_pos hbad]

/-- Witness for C6 at concrete inputs: a `User` session is redirected, an
Admin naming the `Admin` role is refused with the permission message and
the store is unchanged, and an Admin creating a `SuperUser` gets an
account in its own tenant. -/
theorem c6_admin_creation_rules_witness :
    create_user { user_id := 2, user_role := "User", group_id := some 1 }
      { username := "eve", email := "eve@example.com", password := "pw",
        first_name := "Eve", last_name := "E", role_id := FormInt.ok 3,
        group_id := FormInt.absent, organization_name := "",
        organization_description := "" }
      { userInsertFails := false, linkUpdateFails := false } modSampleStore =
      (modSampleStore, CreateUserResult.permissionRedirect) ∧
    create_user { user_id := 7, user_role := "Admin", group_id := some 1 }
      { username := "eve", email := "eve@example.com", password := "pw",
        first_name := "Eve", last_name := "E", role_id := FormInt.ok 2,
        group_id := FormInt.absent, organization_name := "",
        organization_description := "" }
      { userInsertFails := false, linkUpdateFails := false } modSampleStore =
      (modSampleStore, CreateUserResult.validationError
        "You can only create User and SuperUser roles.") ∧
    ∃ u : UserRow,
      (create_user { user_id := 7, user_role := "Admin", group_id := some 1 }
        { username := "eve", email := "eve@example.com", password := "pw",
          first_name := "Eve", last_name := "E", role_id := FormInt.ok 3,
          group_id := FormInt.absent, organization_name := "",
          organization_description := "" }
        { userInsertFails := false, linkUpdateFails := false } modSampleStore).1.users =
        modSampleStore.users ++ [u] ∧
      u.id = 3 ∧
      u.group_id = ({ user_id := 7, user_role := "Admin", group_id := some 1 } : Session).group_id ∧
      ∃ role ∈ modSampleStore.roles, u.role_id = some role.id ∧
        (role.name = "User" ∨ role.name = "SuperUser") := by
  refine ⟨?_, ?_, ?_⟩
  · exact (c6_admin_creation_rules { user_id := 2, user_role := "User", group_id := some 1 }
      { username := "eve", email := "eve@example.com", password := "pw",
        first_name := "Eve", last_name := "E", role_id := FormInt.ok 3,
        group_id := FormInt.absent, organization_name := "",
        organization_description := "" }
      { userInsertFails := false, linkUpdateFails := false } modSampleStore).1 (Or.inl rfl)
  · exact (c6_admin_creation_rules { user_id := 7, user_role := "Admin", group_id := some 1 }
      { username := "eve", email := "eve@example.com", password := "pw",
        first_name := "Eve", last_name := "E", role_id := FormInt.ok 2,
        group_id := FormInt.absent, organization_name := "",
        organization_description := "" }
      { userInsertFails := false, linkUpdateFails := false } modSampleStore).2.2
      2 { id := 2, name := "Admin" } rfl rfl (by decide) (by decide) (by decide) (by decide)
  · exact (c6_admin_creation_rules { user_id := 7, user_role := "Admin", group_id := some 1 }
      { username := "eve", email := "eve@example.com", password := "pw",
        first_name := "Eve", last_name := "E", role_id := FormInt.ok 3,
        group_id := FormInt.absent, organization_name := "",
        organization_description := "" }
      { userInsertFails := false, linkUpdateFails := false } modSampleStore).2.1
      rfl 3 (by decide)

theorem sqlUpdate_append (p : α → Bool) (h : α → α) (l1 l2 : List α) :
    sqlUpdate p h (l1 ++ l2) = sqlUpdate p h l1 ++ sqlUpdate p h l2 := by
  simp [sqlUpdate]

/-- C7: when a SuperAdmin creates an Admin account, the whole
group-then-account-then-link sequence runs in one transaction: every
error outcome -- validation failures, a failing account INSERT, a failing
link UPDATE -- leaves the store exactly as it was (the group INSERT is
rolled back), and the success outcome contains both the new account and
the new group with `admin_user_id` pointing at the account. -/
theorem c7_admin_provisioning_atomic (sess : Session) (f : CreateUserForm)
    (faults : DbFaults) (s : Store) (rid : Nat) (role : RoleRow)
    (hrole : sess.user_role = "SuperAdmin")
    (hrid : f.role_id = FormInt.ok rid)
    (hfind : s.roles.find? (fun r => r.id == rid) = some role)
    (hadmin : role.name = "Admin")
    (hwfg : ∀ g ∈ s.groups, g.id < s.nextGroupId) :
    (∀ m, (create_user sess f faults s).2 = CreateUserResult.validationError m →
      (create_user sess f faults s).1 = s) ∧
    ((create_user sess f faults s).2 = CreateUserResult.dbError →
      (create_user sess f faults s).1 = s) ∧
    (∀ uid, (create_user sess f faults s).2 = CreateUserResult.created uid →
      uid = s.nextUserId ∧
      (create_user sess f faults s).1.users = s.users ++ [{ id := s.nextUserId, username := f.username, email := f.email, password_hash := generate_password_hash f.password, first_name := f.first_name, last_name := f.last_name, role_id := some rid, group_id := some s.nextGroupId, is_active := true, is_banned := false }] ∧
      (create_user sess f faults s).1.groups = s.groups ++ [{ id := s.nextGroupId, name := f.organization_name, description := (if f.organization_description = "" then "Organization for " ++ f.organization_name else f.organization_description), admin_user_id := some s.nextUserId, is_active := true }]) := by
  by_cases h1 : (f.username = "" ∨ f.email = "" ∨ f.password = "")
  · have hstore : create_user sess f faults s =
        (s, CreateUserResult.validationError "Username, email, and password are required.") := by
      unfold create_user
      rw [if_neg (not_not_intro (Or.inl hrole))]
      rw [if_pos h1]
    refine ⟨fun m hm => by rw [hstore], fun hm => by rw [hstore], fun uid hm => ?_⟩
    rw [hstore] at hm
    exact absurd hm (by simp)
  · by_cases hgbad : f.group_id = FormInt.bad
    · have hstore : create_user sess f faults s =
          (s, CreateUserResult.validationError "Invalid group selected.") := by
        unfold create_user
        rw [if_neg (not_not_intro (Or.inl hrole))]
        rw [if_neg h1]
        simp only [hrid, hrole, hgbad, String.reduceEq, true_and, if_true, reduceIte]
      refine ⟨fun m hm => by rw [hstore], fun hm => by rw [hstore], fun uid hm => ?_⟩
      rw [hstore] at hm
      exact absurd hm (by simp)
    · cases hany : s.users.any fun u => u.username == f.username || u.email == f.email with
      | true =>
        have hstore : create_user sess f faults s =
            (s, CreateUserResult.validationError "Username or email already exists.") := by
          unfold create_user
          rw [if_neg (not_not_intro (Or.inl hrole))]
          rw [if_neg h1]
          simp only [hrid, hrole, hgbad, hany, String.reduceEq, true_and, if_true, if_false, reduceIte]
        refine ⟨fun m hm => by rw [hstore], fun hm => by rw [hstore], fun uid hm => ?_⟩
        rw [hstore] at hm
        exact absurd hm (by simp)
      | false =>
        by_cases horg : f.organization_name = ""
        · have hstore : create_user sess f faults s =
              (s, CreateUserResult.validationError "Organization name is required when creating an Admin user.") := by
            unfold create_user
            rw [if_neg (not_not_intro (Or.inl hrole))]
            rw [if_neg h1]
            simp only [hrid, hrole, hgbad, hany, hfind, hadmin, horg, String.reduceEq, true_and, false_and, not_true, and_false, if_true, if_false, Bool.false_eq_true, reduceIte]
          refine ⟨fun m hm => by rw [hstore], fun hm => by rw [hstore], fun uid hm => ?_⟩
          rw [hstore] at hm
          exact absurd hm (by simp)
        · cases hdup : s.groups.any fun g => g.name == f.organization_name with
          | true =>
            have hstore : create_user sess f faults s =
                (s, CreateUserResult.validationError "Organization already exists. Please choose a different name.") := by
              unfold create_user
              rw [if_neg (not_not_intro (Or.inl hrole))]
              rw [if_neg h1]
              simp only [hrid, hrole, hgbad, hany, hfind, hadmin, horg, hdup, String.reduceEq, true_and, false_and, not_true, and_false, if_true, if_false, Bool.false_eq_true, reduceIte]
            refine ⟨fun m hm => by rw [hstore], fun hm => by rw [hstore], fun uid hm => ?_⟩
            rw [hstore] at hm
            exact absurd hm (by simp)
          | false =>
            cases hf1 : faults.userInsertFails with
            | true =>
              have hstore : create_user sess f faults s = (s, CreateUserResult.dbError) := by
                unfold create_user
                rw [if_neg (not_not_intro (Or.inl hrole))]
                rw [if_neg h1]
                simp only [hrid, hrole, hgbad, hany, hfind, hadmin, horg, hdup, hf1, ne_eq, String.reduceEq, true_and, false_and, not_true, and_false, if_true, if_false, Bool.false_eq_true, reduceIte]
              refine ⟨fun m hm => ?_, fun hm => by rw [hstore], fun uid hm => ?_⟩
              · rw [hstore]
              · rw [hstore] at hm
                exact absurd hm (by simp)
            | false =>
              cases hf2 : faults.linkUpdateFails with
              | true =>
                have hstore : create_user sess f faults s = (s, CreateUserResult.dbError) := by
                  unfold create_user
                  rw [if_neg (not_not_intro (Or.inl hrole))]
                  rw [if_neg h1]
                  simp only [hrid, hrole, hgbad, hany, hfind, hadmin, horg, hdup, hf1, hf2, ne_eq, String.reduceEq, true_and, false_and, not_true, and_false, if_true, if_false, Bool.false_eq_true, reduceIte, Option.isSome_some, eq_self_iff_true]
                refine ⟨fun m hm => ?_, fun hm => by rw [hstore], fun uid hm => ?_⟩
                · rw [hstore]
                · rw [hstore] at hm
                  exact absurd hm (by simp)
              | false =>
                have hupd : sqlUpdate (fun g : GroupRow => some g.id == some s.nextGroupId) (fun g => { g with admin_user_id := some s.nextUserId }) (s.groups ++ [{ id := s.nextGroupId, name := f.organization_name, description := (if f.organization_description = "" then "Organization for " ++ f.organization_name else f.organization_description), admin_user_id := none, is_active := true }]) = s.groups ++ [{ id := s.nextGroupId, name := f.organization_name, description := (if f.organization_description = "" then "Organization for " ++ f.organization_name else f.organization_description), admin_user_id := some s.nextUserId, is_active := true }] := by
                  rw [sqlUpdate_append]
                  rw [sqlUpdate_eq_self _ _ _ (fun x hx hpx =>
                    absurd (show x.id = s.nextGroupId by simpa using hpx)
                      (by have := hwfg x hx; omega))]
                  simp [sqlUpdate]
                have hstore : create_user sess f faults s =
                    ({ s with users := s.users ++ [{ id := s.nextUserId, username := f.username, email := f.email, password_hash := generate_password_hash f.password, first_name := f.first_name, last_name := f.last_name, role_id := some rid, group_id := some s.nextGroupId, is_active := true, is_banned := false }], groups := s.groups ++ [{ id := s.nextGroupId, name := f.organization_name, description := (if f.organization_description = "" then "Organization for " ++ f.organization_name else f.organization_description), admin_user_id := some s.nextUserId, is_active := true }], nextUserId := s.nextUserId + 1, nextGroupId := s.nextGroupId + 1 },
                     CreateUserResult.created s.nextUserId) := by
                  unfold create_user
                  rw [if_neg (not_not_intro (Or.inl hrole))]
                  rw [if_neg h1]
                  simp only [hrid, hrole, hgbad, hany, hfind, hadmin, horg, hdup, hf1, hf2, ne_eq, String.reduceEq, true_and, false_and, not_true, and_false, if_true, if_false, Bool.false_eq_true, reduceIte, Option.isSome_some, eq_self_iff_true]
                  rw [hupd]
                refine ⟨fun m hm => ?_, fun hm => ?_, fun uid hm => ?_⟩
                · rw [hstore] at hm
                  exact absurd hm (by simp)
                · rw [hstore] at hm
                  exact absurd hm (by simp)
                · rw [hstore] at hm
                  have huid : uid = s.nextUserId := by
                    simpa using hm.symm
                  refine ⟨huid, ?_, ?_⟩
                  · rw [hstore]
                  · rw [hstore]

/-- Witness for C7 at concrete inputs: with a failing account INSERT the
store is left untouched (the Beta group insert is rolled back), and
without faults the store gains the account and the linked Beta group. -/
theorem c7_admin_provisioning_atomic_witness :
    (create_user { user_id := 1, user_role := "SuperAdmin", group_id := none }
      { username := "alice", email := "alice@example.com", password := "pw",
        first_name := "Alice", last_name := "A", role_id := FormInt.ok 2,
        group_id := FormInt.absent, organization_name := "Beta",
        organization_description := "" }
      { userInsertFails := true, linkUpdateFails := false } modSampleStore).1 =
      modSampleStore ∧
    (create_user { user_id := 1, user_role := "SuperAdmin", group_id := none }
      { username := "alice", email := "alice@example.com", password := "pw",
        first_name := "Alice", last_name := "A", role_id := FormInt.ok 2,
        group_id := FormInt.absent, organization_name := "Beta",
        organization_description := "" }
      { userInsertFails := false, linkUpdateFails := false } modSampleStore).1.users =
      modSampleStore.users ++
        [{ id := 3, username := "alice", email := "alice@example.com", password_hash := generate_password_hash "pw", first_name := "Alice", last_name := "A", role_id := some 2, group_id := some 2, is_active := true, is_banned := false }] ∧
    (create_user { user_id := 1, user_role := "SuperAdmin", group_id := none }
      { username := "alice", email := "alice@example.com", password := "pw",
        first_name := "Alice", last_name := "A", role_id := FormInt.ok 2,
        group_id := FormInt.absent, organization_name := "Beta",
        organization_description := "" }
      { userInsertFails := false, linkUpdateFails := false } modSampleStore).1.groups =
      modSampleStore.groups ++
        [{ id := 2, name := "Beta", description := "Organization for Beta", admin_user_id := some 3, is_active := true }] := by
  have hfault := c7_admin_provisioning_atomic
    { user_id := 1, user_role := "SuperAdmin", group_id := none }
    { username := "alice", email := "alice@example.com", password := "pw",
      first_name := "Alice", last_name := "A", role_id := FormInt.ok 2,
      group_id := FormInt.absent, organization_name := "Beta",
      organization_description := "" }
    { userInsertFails := true, linkUpdateFails := false } modSampleStore
    2 { id := 2, name := "Admin" } rfl rfl (by decide) rfl (by decide)
  have hok := c7_admin_provisioning_atomic
    { user_id := 1, user_role := "SuperAdmin", group_id := none }
    { username := "alice", email := "alice@example.com", password := "pw",
      first_name := "Alice", last_name := "A", role_id := FormInt.ok 2,
      group_id := FormInt.absent, organization_name := "Beta",
      organization_description := "" }
    { userInsertFails := false, linkUpdateFails := false } modSampleStore
    2 { id := 2, name := "Admin" } rfl rfl (by decide) rfl (by decide)
  refine ⟨hfault.2.1 (by decide), ?_, ?_⟩
  · exact (hok.2.2 3 (by decide)).2.1
  · exact (hok.2.2 3 (by decide)).2.2
